import Mathlib

/-!
Verification of the adaptive-circuits demonstration script
(`demonstrations/tutorial_adaptive_circuits.py`).

The script builds a molecular Hamiltonian, enumerates single and double
excitations, selects excitation gates whose energy gradient magnitude
exceeds a threshold, and optimizes the parameters of the selected gates
by fixed-count gradient descent, finally repeating the optimization with
a sparse Hamiltonian representation.

Real scalars of the script are embedded as rationals so that every
definition is executable.  The quantum-simulation library (Hamiltonian
construction, circuit simulation, gradient evaluation) is an external
collaborator; its outputs enter the embedding as function parameters
(gradient and cost oracles), while all logic written in the script
itself (threshold filtering, loop structure, parameter initialization,
gate classification) is translated directly.
-/

/-- An excitation descriptor: an ordered tuple of qubit indices
(length 2 for a single excitation, 4 for a double excitation). -/
abbrev Exc := List ℕ

/-- The threshold selector of the script
(`doubles_select = [doubles[i] for i in range(len(doubles)) if abs(grads[i]) > 1.0e-5]`,
line 131, and the identical `singles_select` at line 186): keep `pool[i]`
exactly when the absolute value of `grads[i]` is strictly above the
threshold. -/
def select (pool : List Exc) (grads : List ℚ) (threshold : ℚ) : List Exc :=
  ((List.range pool.length).filter (fun i => threshold < |grads.getD i 0|)).map
    (fun i => pool.getD i [])

/-- Per-candidate gradient evaluations of the selector pipeline: the
external collaborator evaluates one derivative of the expected energy per
pool entry, in pool order (script lines 120-121, one gradient entry per
parameter). -/
def computeGrads (g : Exc → ℚ) (pool : List Exc) : List ℚ :=
  pool.map g

/-- One gradient-descent update of `qml.GradientDescentOptimizer(stepsize=0.5)`:
`opt.step(cost_fn, params, ...)` returns `params - stepsize * grad(params)`
componentwise. -/
def gdStep (grad : List ℚ → List ℚ) (stepsize : ℚ) (p : List ℚ) : List ℚ :=
  List.zipWith (fun x g => x - stepsize * g) p (grad p)

/-- `opt.step_and_cost(cost_fn, params, ...)`: the updated parameters
together with the cost evaluated at the parameters before the update. -/
def gdStepAndCost (cost : List ℚ → ℚ) (grad : List ℚ → List ℚ) (stepsize : ℚ)
    (p : List ℚ) : List ℚ × ℚ :=
  (gdStep grad stepsize p, cost p)

/-- The first optimization loop of the script
(`for n in range(20): params_doubles = opt.step(...)`, lines 144-145):
repeatedly replace the parameter vector by its update. -/
def stepLoop (f : List ℚ → List ℚ) : ℕ → List ℚ → List ℚ
  | 0, p => p
  | n + 1, p => stepLoop f n (f p)

/-- The `step_and_cost` optimization loops of the script (lines 199-203
and 255-259): perform `n` updates, collecting the energy reported at
each step; returns the final parameters and the energy trace in step
order. -/
def optLoop (cost : List ℚ → ℚ) (grad : List ℚ → List ℚ) (stepsize : ℚ) :
    ℕ → List ℚ → List ℚ × List ℚ
  | 0, p => (p, [])
  | n + 1, p =>
      let pe := gdStepAndCost cost grad stepsize p
      let r := optLoop cost grad stepsize n pe.1
      (r.1, pe.2 :: r.2)

/-!
The two-stage adaptive driver of the script (lines 115-203), one
definition per global assignment of the script.  `grad1` and `cost1`
are the gradient and energy of the `circuit_1` cost function as
functions of the parameter vector and the excitation list
(`qml.ExpvalCost(circuit_1, H, dev)` and `qml.grad` of it, lines
116-118 and 195); `gradS` is the gradient of the `circuit_2` cost
function as a function of the candidate parameters, the fixed context
gates and the fixed context parameters (lines 173-174).
-/

/-- `doubles_select` (lines 120-131): gradients for all double
excitations at zero parameters, then threshold selection. -/
def doublesSelect (doubles : List Exc)
    (grad1 : List ℚ → List Exc → List ℚ) (threshold : ℚ) : List Exc :=
  select doubles (grad1 (List.replicate doubles.length 0) doubles) threshold

/-- `params_doubles` after the first optimization loop (lines 142-145):
20 `opt.step` updates from zero parameters for the selected doubles. -/
def paramsDoublesRun (doubles : List Exc)
    (grad1 : List ℚ → List Exc → List ℚ)
    (stepsize threshold : ℚ) : List ℚ :=
  stepLoop
    (gdStep (fun p => grad1 p (doublesSelect doubles grad1 threshold))
      stepsize) 20
    (List.replicate (doublesSelect doubles grad1 threshold).length 0)

/-- `singles_select` (lines 173-186): gradients for all single
excitations at zero parameters with the selected doubles and their
optimized parameters held fixed as context, then threshold
selection. -/
def singlesSelect (doubles singles : List Exc)
    (grad1 : List ℚ → List Exc → List ℚ)
    (gradS : List ℚ → List Exc → List ℚ → List ℚ)
    (stepsize threshold : ℚ) : List Exc :=
  select singles
    (gradS (List.replicate singles.length 0)
      (doublesSelect doubles grad1 threshold)
      (paramsDoublesRun doubles grad1 stepsize threshold)) threshold

/-- The excitation list of the final optimization,
`doubles_select + singles_select` (line 197 and line 233). -/
def finalExcitations (doubles singles : List Exc)
    (grad1 : List ℚ → List Exc → List ℚ)
    (gradS : List ℚ → List Exc → List ℚ → List ℚ)
    (stepsize threshold : ℚ) : List Exc :=
  doublesSelect doubles grad1 threshold ++
    singlesSelect doubles singles grad1 gradS stepsize threshold

/-- The final optimization loop (lines 195-203): 20 `opt.step_and_cost`
steps over the concatenated selection, parameters re-initialized to
zero. -/
def finalRun (doubles singles : List Exc)
    (cost1 : List ℚ → List Exc → ℚ) (grad1 : List ℚ → List Exc → List ℚ)
    (gradS : List ℚ → List Exc → List ℚ → List ℚ)
    (stepsize threshold : ℚ) : List ℚ × List ℚ :=
  optLoop
    (fun p => cost1 p
      (finalExcitations doubles singles grad1 gradS stepsize threshold))
    (fun p => grad1 p
      (finalExcitations doubles singles grad1 gradS stepsize threshold))
    stepsize 20
    (List.replicate
      (finalExcitations doubles singles grad1 gradS stepsize threshold).length
      0)

/-- The sparse re-optimization of the script (lines 230-259): same
selected excitations, parameters re-initialized to zero, 20
`opt.step_and_cost` steps against the sparse-Hamiltonian cost. -/
def sparseRun (excitations : List Exc) (costS : List ℚ → ℚ)
    (gradSp : List ℚ → List ℚ) (stepsize : ℚ) : List ℚ × List ℚ :=
  optLoop costS gradSp stepsize 20 (List.replicate excitations.length 0)

/-- Gates applied by the circuit builders. -/
inductive Gate
  | basis (state : List ℕ)
  | singleExc (theta : ℚ) (wires : Exc)
  | doubleExc (theta : ℚ) (wires : Exc)
deriving DecidableEq

/-- The gate `circuit_1` applies for one excitation descriptor
(lines 101-105): a double excitation for length 4, otherwise a single
excitation (the `else` branch catches every non-length-4 descriptor). -/
def excGate1 (theta : ℚ) (e : Exc) : Gate :=
  if e.length = 4 then Gate.doubleExc theta e else Gate.singleExc theta e

/-- The gate `circuit_2` and the sparse `circuit` apply for one
excitation descriptor (lines 157-167 and 242-246): a double excitation
for length 4, a single excitation for length 2, and nothing at all
otherwise (`if ... elif ...` with no `else`). -/
def excGate2 (theta : ℚ) (e : Exc) : Option Gate :=
  if e.length = 4 then some (Gate.doubleExc theta e)
  else if e.length = 2 then some (Gate.singleExc theta e)
  else none

/-- The gate sequence of `circuit_1` (lines 98-105): basis-state
preparation followed by one gate per excitation descriptor. -/
def circuit1 (hf : List ℕ) (params : List ℚ) (excitations : List Exc) :
    List Gate :=
  Gate.basis hf ::
    (List.range excitations.length).map
      (fun i => excGate1 (params.getD i 0) (excitations.getD i []))

/-- The gate sequence of `circuit_2` (lines 154-167): basis-state
preparation, then the fixed-context gates, then the candidate gates;
descriptors of length other than 2 and 4 are silently skipped. -/
def circuit2 (hf : List ℕ) (params : List ℚ) (excitations : List Exc)
    (gatesSel : List Exc) (paramsSel : List ℚ) : List Gate :=
  Gate.basis hf ::
    ((List.range gatesSel.length).filterMap
        (fun i => excGate2 (paramsSel.getD i 0) (gatesSel.getD i []))
      ++ (List.range excitations.length).filterMap
        (fun i => excGate2 (params.getD i 0) (excitations.getD i [])))

/-- The gate sequence of the sparse-method `circuit` (lines 237-248):
basis-state preparation followed by the candidate gates, with the same
`if ... elif ...` classification as `circuit_2`. -/
def sparseCircuit (hf : List ℕ) (params : List ℚ) (excitations : List Exc) :
    List Gate :=
  Gate.basis hf ::
    (List.range excitations.length).filterMap
      (fun i => excGate2 (params.getD i 0) (excitations.getD i []))

/-! Shared helper lemmas. -/

/-- Reading every position of a list back in order reconstructs the
list. -/
lemma map_getD_range (l : List Exc) :
    (List.range l.length).map (fun i => l.getD i []) = l := by
  induction l with
  | nil => rfl
  | cons a t ih =>
      rw [List.length_cons, List.range_succ_eq_map, List.map_cons,
        List.map_map]
      have h : ((fun i => (a :: t).getD i []) ∘ Nat.succ) =
          fun i => t.getD i [] := by
        funext i
        simp
      simp only [List.getD_cons_zero]
      rw [h, ih]

/-- Membership characterization of the threshold selector. -/
lemma mem_select_iff (pool : List Exc) (grads : List ℚ) (t : ℚ) (e : Exc) :
    e ∈ select pool grads t ↔
      ∃ i, i < pool.length ∧ t < |grads.getD i 0| ∧ pool.getD i [] = e := by
  simp only [select, List.mem_map, List.mem_filter, List.mem_range,
    decide_eq_true_eq]
  constructor
  · rintro ⟨i, ⟨hi, hg⟩, he⟩
    exact ⟨i, hi, hg, he⟩
  · rintro ⟨i, hi, hg, he⟩
    exact ⟨i, ⟨hi, hg⟩, he⟩

/-- `stepLoop` iterates its update function. -/
lemma stepLoop_eq_iterate (f : List ℚ → List ℚ) :
    ∀ (n : ℕ) (p : List ℚ), stepLoop f n p = f^[n] p := by
  intro n
  induction n with
  | zero => intro p; rfl
  | succ n ih =>
      intro p
      rw [stepLoop, ih, Function.iterate_succ_apply]

/-- The parameters returned by `optLoop` are the `n`-fold update of the
initial parameters. -/
lemma optLoop_fst (cost : List ℚ → ℚ) (grad : List ℚ → List ℚ)
    (stepsize : ℚ) :
    ∀ (n : ℕ) (p : List ℚ),
      (optLoop cost grad stepsize n p).1 = (gdStep grad stepsize)^[n] p := by
  intro n
  induction n with
  | zero => intro p; rfl
  | succ n ih =>
      intro p
      rw [optLoop, ih, Function.iterate_succ_apply]
      rfl

/-- `optLoop` reports exactly one energy per step. -/
lemma optLoop_snd_length (cost : List ℚ → ℚ) (grad : List ℚ → List ℚ)
    (stepsize : ℚ) :
    ∀ (n : ℕ) (p : List ℚ), (optLoop cost grad stepsize n p).2.length = n := by
  intro n
  induction n with
  | zero => intro p; rfl
  | succ n ih =>
      intro p
      rw [optLoop]
      simpa using ih _

/-- The `k`-th energy reported by `optLoop` is the cost at the `k`-th
iterate of the update, i.e. at the parameters before the `k`-th
update. -/
lemma optLoop_snd_getD (cost : List ℚ → ℚ) (grad : List ℚ → List ℚ)
    (stepsize : ℚ) :
    ∀ (n k : ℕ) (p : List ℚ), k < n →
      (optLoop cost grad stepsize n p).2.getD k 0 =
        cost ((gdStep grad stepsize)^[k] p) := by
  intro n
  induction n with
  | zero => intro k p hk; omega
  | succ n ih =>
      intro k p hk
      rw [optLoop]
      cases k with
      | zero => rfl
      | succ k =>
          have hk' : k < n := by omega
          simpa [Function.iterate_succ_apply] using ih k _ hk'

/-- A gradient-descent update keeps the parameter length when the
gradient oracle does. -/
lemma gdStep_length (grad : List ℚ → List ℚ) (stepsize : ℚ) (p : List ℚ)
    (h : (grad p).length = p.length) :
    (gdStep grad stepsize p).length = p.length := by
  simp [gdStep, h]

/-- Iterating a length-preserving gradient-descent update keeps the
parameter length. -/
lemma iterate_gdStep_length (grad : List ℚ → List ℚ) (stepsize : ℚ)
    (h : ∀ q, (grad q).length = q.length) :
    ∀ (k : ℕ) (p : List ℚ),
      ((gdStep grad stepsize)^[k] p).length = p.length := by
  intro k
  induction k with
  | zero => intro p; rfl
  | succ k ih =>
      intro p
      rw [Function.iterate_succ_apply]
      rw [ih (gdStep grad stepsize p), gdStep_length grad stepsize p (h p)]

/-- `optLoop` only looks at its cost and gradient oracles pointwise. -/
lemma optLoop_congr (c1 c2 : List ℚ → ℚ) (g1 g2 : List ℚ → List ℚ)
    (stepsize : ℚ) (hc : ∀ p, c1 p = c2 p) (hg : ∀ p, g1 p = g2 p) :
    ∀ (n : ℕ) (p : List ℚ),
      optLoop c1 g1 stepsize n p = optLoop c2 g2 stepsize n p := by
  intro n
  induction n with
  | zero => intro p; rfl
  | succ n ih =>
      intro p
      rw [optLoop, optLoop]
      simp only [gdStepAndCost, gdStep, hc, hg]
      rw [ih]

/-! Claim theorems. -/

/-- Claim C1: the selector retains `pool[i]` exactly when the absolute
value of `gradient[i]` is strictly greater than the threshold; in
particular a gate whose gradient magnitude equals the threshold is
excluded from the selected list. -/
theorem select_retains_iff_strict (pool : List Exc) (grads : List ℚ)
    (t : ℚ) (e : Exc) (g : ℚ) :
    (e ∈ select pool grads t ↔
      ∃ i, i < pool.length ∧ t < |grads.getD i 0| ∧ pool.getD i [] = e) ∧
    (|g| = t → select [e] [g] t = []) := by
  refine ⟨mem_select_iff pool grads t e, fun hg => ?_⟩
  simp [select, List.range_succ, hg]

/-- Witness for C1 at concrete inputs: a gradient of magnitude 3 beats
threshold 1 and the gate is retained, while a gradient of magnitude
exactly 1 at threshold 1 is excluded. -/
theorem select_retains_iff_strict_witness :
    [0, 1] ∈ select [[0, 1]] [(3 : ℚ)] 1 ∧
      select [[0, 1]] [(1 : ℚ)] 1 = [] := by
  constructor
  · exact (select_retains_iff_strict [[0, 1]] [(3 : ℚ)] 1 [0, 1] 0).1.mpr
      ⟨0, by decide, by decide, rfl⟩
  · exact (select_retains_iff_strict [[0, 1]] [(1 : ℚ)] 1 [0, 1] 1).2
      (by decide)

/-- Claim C3: lowering the threshold can only enlarge the selection:
for thresholds `t1 < t2`, every gate retained at `t2` is retained at
`t1`, whatever gradients the context and Hamiltonian produced. -/
theorem select_monotone (pool : List Exc) (grads : List ℚ) (t1 t2 : ℚ)
    (h : t1 < t2) :
    ∀ e ∈ select pool grads t2, e ∈ select pool grads t1 := by
  intro e he
  rcases (mem_select_iff pool grads t2 e).1 he with ⟨i, hi, hg, hget⟩
  exact (mem_select_iff pool grads t1 e).2 ⟨i, hi, h.trans hg, hget⟩

/-- Witness for C3 at concrete inputs: a gate selected at threshold 1
is still selected at threshold 0. -/
theorem select_monotone_witness :
    [0, 1] ∈ select [[0, 1]] [(3 : ℚ)] 0 :=
  select_monotone [[0, 1]] [(3 : ℚ)] 0 1 (by decide) [0, 1] (by decide)

/-- Claim C4: the selector output is a subsequence of the pool — the
retained entries appear in their original relative order. -/
theorem select_sublist (pool : List Exc) (grads : List ℚ) (t : ℚ) :
    (select pool grads t).Sublist pool := by
  have h1 : ((List.range pool.length).filter
        (fun i => t < |grads.getD i 0|)).Sublist (List.range pool.length) :=
    List.filter_sublist _
  have h2 := h1.map (fun i => pool.getD i [])
  rw [map_getD_range pool] at h2
  exact h2

/-- Claim C7: an empty candidate pool yields an empty selection, and
the list of per-candidate gradient evaluations performed for it is
empty. -/
theorem select_empty_pool (grads : List ℚ) (g : Exc → ℚ) (t : ℚ) :
    select [] grads t = [] ∧ computeGrads g [] = [] :=
  ⟨rfl, rfl⟩

/-- Claim C2: the two-stage driver evaluates the single-excitation
gradients with the selected doubles and their 20-step-optimized
parameters held fixed as context, and runs the final optimization over
`doubles_selected ++ singles_selected` with every parameter
re-initialized to zero. -/
theorem twoStage_sequence (doubles singles : List Exc)
    (cost1 : List ℚ → List Exc → ℚ) (grad1 : List ℚ → List Exc → List ℚ)
    (gradS : List ℚ → List Exc → List ℚ → List ℚ) (ss th : ℚ) :
    paramsDoublesRun doubles grad1 ss th =
        (gdStep (fun p => grad1 p (doublesSelect doubles grad1 th)) ss)^[20]
          (List.replicate (doublesSelect doubles grad1 th).length 0) ∧
    singlesSelect doubles singles grad1 gradS ss th =
        select singles
          (gradS (List.replicate singles.length 0)
            (doublesSelect doubles grad1 th)
            (paramsDoublesRun doubles grad1 ss th)) th ∧
    finalExcitations doubles singles grad1 gradS ss th =
        doublesSelect doubles grad1 th ++
          singlesSelect doubles singles grad1 gradS ss th ∧
    finalRun doubles singles cost1 grad1 gradS ss th =
        optLoop
          (fun p => cost1 p (finalExcitations doubles singles grad1 gradS
            ss th))
          (fun p => grad1 p (finalExcitations doubles singles grad1 gradS
            ss th))
          ss 20
          (List.replicate
            (finalExcitations doubles singles grad1 gradS ss th).length
            0) := by
  refine ⟨?_, rfl, rfl, rfl⟩
  exact stepLoop_eq_iterate _ 20 _

/-- Claim C5: in every `step_and_cost` loop step, the energy reported
at step `k` is the cost at the parameters before that step's update;
the final parameters are the `n`-fold update; and the plain `step`
update of the first loop equals the parameter component of
`step_and_cost`. -/
theorem stepAndCost_reports_pre_update (cost : List ℚ → ℚ)
    (grad : List ℚ → List ℚ) (ss : ℚ) (p0 : List ℚ) (n k : ℕ) (hk : k < n) :
    (optLoop cost grad ss n p0).2.getD k 0 =
        cost ((gdStep grad ss)^[k] p0) ∧
    (optLoop cost grad ss n p0).1 = (gdStep grad ss)^[n] p0 ∧
    gdStep grad ss p0 = (gdStepAndCost cost grad ss p0).1 :=
  ⟨optLoop_snd_getD cost grad ss n k p0 hk,
    optLoop_fst cost grad ss n p0, rfl⟩

/-- Witness for C5: a one-step loop on a concrete cost reports the
cost at the initial, pre-update parameters. -/
theorem stepAndCost_reports_pre_update_witness :
    (optLoop (fun p => p.getD 0 0) (fun p => p) 1 1 [1]).2.getD 0 0 =
      (fun p : List ℚ => p.getD 0 0) ((gdStep (fun p => p) 1)^[0] [1]) :=
  (stepAndCost_reports_pre_update (fun p => p.getD 0 0) (fun p => p) 1 [1]
    1 0 (by decide)).1

/-- Claim C6: whenever a parameter vector is used together with an
active excitation list — the doubles gradient call, every step of and
the end of the doubles optimization, the singles gradient call, the
initialization, every step and the end of the final optimization, and
the initialization, every step and the end of the sparse
re-optimization over the same excitation list — the two have equal
length, provided the external gradient oracles return one entry per
parameter. -/
theorem params_gate_alignment (doubles singles : List Exc)
    (cost1 : List ℚ → List Exc → ℚ) (grad1 : List ℚ → List Exc → List ℚ)
    (gradS : List ℚ → List Exc → List ℚ → List ℚ)
    (costS : List ℚ → ℚ) (gradSp : List ℚ → List ℚ) (ss th : ℚ)
    (hg : ∀ p E, (grad1 p E).length = p.length)
    (hgs : ∀ p, (gradSp p).length = p.length) :
    (List.replicate doubles.length (0 : ℚ)).length = doubles.length ∧
    (∀ k, ((gdStep (fun p => grad1 p (doublesSelect doubles grad1 th))
        ss)^[k]
        (List.replicate (doublesSelect doubles grad1 th).length 0)).length =
          (doublesSelect doubles grad1 th).length) ∧
    (paramsDoublesRun doubles grad1 ss th).length =
        (doublesSelect doubles grad1 th).length ∧
    (List.replicate singles.length (0 : ℚ)).length = singles.length ∧
    (List.replicate
        (finalExcitations doubles singles grad1 gradS ss th).length
        (0 : ℚ)).length =
      (finalExcitations doubles singles grad1 gradS ss th).length ∧
    (finalRun doubles singles cost1 grad1 gradS ss th).1.length =
      (finalExcitations doubles singles grad1 gradS ss th).length ∧
    (∀ k, ((gdStep
        (fun p => grad1 p
          (finalExcitations doubles singles grad1 gradS ss th)) ss)^[k]
        (List.replicate
          (finalExcitations doubles singles grad1 gradS ss th).length
          0)).length =
      (finalExcitations doubles singles grad1 gradS ss th).length) ∧
    (∀ k, ((gdStep gradSp ss)^[k]
        (List.replicate
          (finalExcitations doubles singles grad1 gradS ss th).length
          0)).length =
      (finalExcitations doubles singles grad1 gradS ss th).length) ∧
    (sparseRun (finalExcitations doubles singles grad1 gradS ss th)
        costS gradSp ss).1.length =
      (finalExcitations doubles singles grad1 gradS ss th).length := by
  have hstep : ∀ k,
      ((gdStep (fun p => grad1 p (doublesSelect doubles grad1 th)) ss)^[k]
        (List.replicate (doublesSelect doubles grad1 th).length 0)).length =
          (doublesSelect doubles grad1 th).length := by
    intro k
    rw [iterate_gdStep_length _ ss
      (fun q => hg q (doublesSelect doubles grad1 th)) k]
    exact List.length_replicate _ _
  have hfstep : ∀ k,
      ((gdStep
        (fun p => grad1 p
          (finalExcitations doubles singles grad1 gradS ss th)) ss)^[k]
        (List.replicate
          (finalExcitations doubles singles grad1 gradS ss th).length
          0)).length =
      (finalExcitations doubles singles grad1 gradS ss th).length := by
    intro k
    rw [iterate_gdStep_length _ ss
      (fun q => hg q (finalExcitations doubles singles grad1 gradS ss th))
      k]
    exact List.length_replicate _ _
  have hsstep : ∀ k,
      ((gdStep gradSp ss)^[k]
        (List.replicate
          (finalExcitations doubles singles grad1 gradS ss th).length
          0)).length =
      (finalExcitations doubles singles grad1 gradS ss th).length := by
    intro k
    rw [iterate_gdStep_length _ ss hgs k]
    exact List.length_replicate _ _
  refine ⟨List.length_replicate _ _, hstep, ?_, List.length_replicate _ _,
    List.length_replicate _ _, ?_, hfstep, hsstep, ?_⟩
  · rw [paramsDoublesRun, stepLoop_eq_iterate]
    exact hstep 20
  · rw [finalRun, optLoop_fst]
    exact hfstep 20
  · rw [sparseRun, optLoop_fst]
    exact hsstep 20

/-- Witness for C6 at a concrete run with length-preserving gradient
oracles: the parameter vectors after the final optimization and after
the sparse re-optimization are each as long as the final excitation
list. -/
theorem params_gate_alignment_witness :
    (finalRun [[0, 1, 2, 3]] [[0, 1]] (fun _ _ => 0) (fun p _ => p)
        (fun p _ _ => p) 1 0).1.length =
      (finalExcitations [[0, 1, 2, 3]] [[0, 1]] (fun p _ => p)
        (fun p _ _ => p) 1 0).length ∧
    (sparseRun (finalExcitations [[0, 1, 2, 3]] [[0, 1]] (fun p _ => p)
        (fun p _ _ => p) 1 0) (fun _ => 0) (fun p => p) 1).1.length =
      (finalExcitations [[0, 1, 2, 3]] [[0, 1]] (fun p _ => p)
        (fun p _ _ => p) 1 0).length :=
  ⟨(params_gate_alignment [[0, 1, 2, 3]] [[0, 1]] (fun _ _ => 0)
      (fun p _ => p) (fun p _ _ => p) (fun _ => 0) (fun p => p) 1 0
      (fun _ _ => rfl) (fun _ => rfl)).2.2.2.2.2.1,
    (params_gate_alignment [[0, 1, 2, 3]] [[0, 1]] (fun _ _ => 0)
      (fun p _ => p) (fun p _ _ => p) (fun _ => 0) (fun p => p) 1 0
      (fun _ _ => rfl) (fun _ => rfl)).2.2.2.2.2.2.2.2⟩

/-- Claim C8: every optimization loop performs exactly its fixed step
count of gradient-descent updates — the energy trace has exactly one
entry per step, the final parameters are exactly the `n`-fold update,
the plain `step` loop likewise, and the script's final loop reports
exactly 20 energies — with no early termination whatever the cost and
gradient values are. -/
theorem fixed_step_count (cost : List ℚ → ℚ) (grad : List ℚ → List ℚ)
    (ss : ℚ) (p0 : List ℚ) (n : ℕ) (doubles singles : List Exc)
    (cost1 : List ℚ → List Exc → ℚ) (grad1 : List ℚ → List Exc → List ℚ)
    (gradS : List ℚ → List Exc → List ℚ → List ℚ) (th : ℚ) :
    (optLoop cost grad ss n p0).2.length = n ∧
    (optLoop cost grad ss n p0).1 = (gdStep grad ss)^[n] p0 ∧
    stepLoop (gdStep grad ss) n p0 = (gdStep grad ss)^[n] p0 ∧
    (finalRun doubles singles cost1 grad1 gradS ss th).2.length = 20 :=
  ⟨optLoop_snd_length cost grad ss n p0, optLoop_fst cost grad ss n p0,
    stepLoop_eq_iterate _ n p0, optLoop_snd_length _ _ ss 20 _⟩

/-- Claim C9: when the sparse representation evaluates the same energy
and gradient as the dense Hamiltonian, the sparse re-optimization (same
gates, zero initial parameters, same step count) reproduces the dense
run exactly, so the two final energies agree within 1e-6. -/
theorem sparse_dense_equivalence (excs : List Exc)
    (costD costS : List ℚ → ℚ) (gradD gradSp : List ℚ → List ℚ) (ss : ℚ)
    (hc : ∀ p, costS p = costD p) (hg : ∀ p, gradSp p = gradD p) :
    sparseRun excs costS gradSp ss =
        optLoop costD gradD ss 20 (List.replicate excs.length 0) ∧
    |(sparseRun excs costS gradSp ss).2.getD 19 0 -
        (optLoop costD gradD ss 20
          (List.replicate excs.length 0)).2.getD 19 0| ≤ 1 / 1000000 := by
  have h := optLoop_congr costS costD gradSp gradD ss hc hg 20
      (List.replicate excs.length 0)
  refine ⟨h, ?_⟩
  rw [sparseRun, h, sub_self, abs_zero]
  norm_num

/-- Witness for C9 at a concrete configuration where the sparse and
dense oracles agree. -/
theorem sparse_dense_equivalence_witness :
    sparseRun [[0, 1]] (fun _ => 0) (fun p => p) 1 =
      optLoop (fun _ => 0) (fun p => p) 1 20
        (List.replicate ([[0, 1]] : List Exc).length 0) :=
  (sparse_dense_equivalence [[0, 1]] (fun _ => 0) (fun _ => 0)
    (fun p => p) (fun p => p) 1 (fun _ => rfl) (fun _ => rfl)).1

/-- Claim C10: the circuit builders classify descriptors differently:
for a descriptor whose length is neither 2 nor 4, `circuit_1` applies a
single-excitation gate while `circuit_2` and the sparse circuit apply
no gate at all; for lengths 2 and 4 all three agree. -/
theorem circuit_classification_mismatch (theta : ℚ) (e : Exc)
    (hf : List ℕ) :
    (e.length ≠ 2 → e.length ≠ 4 →
      circuit1 hf [theta] [e] = [Gate.basis hf, Gate.singleExc theta e] ∧
      circuit2 hf [theta] [e] [] [] = [Gate.basis hf] ∧
      sparseCircuit hf [theta] [e] = [Gate.basis hf]) ∧
    ((e.length = 2 ∨ e.length = 4) →
      circuit1 hf [theta] [e] = circuit2 hf [theta] [e] [] [] ∧
      circuit2 hf [theta] [e] [] [] = sparseCircuit hf [theta] [e]) := by
  constructor
  · intro h2 h4
    refine ⟨?_, ?_, ?_⟩ <;>
      simp [circuit1, circuit2, sparseCircuit, excGate1, excGate2,
        List.range_succ, h2, h4]
  · rintro (h | h) <;>
      simp [circuit1, circuit2, sparseCircuit, excGate1, excGate2,
        List.range_succ, h]

/-- Witness for C10: a length-3 descriptor gets a single-excitation
gate from `circuit_1` but no gate from `circuit_2` and the sparse
circuit, while a length-2 descriptor is treated identically. -/
theorem circuit_classification_mismatch_witness :
    (circuit1 [1, 1, 0, 0] [(1 : ℚ)] [[0, 1, 2]] =
        [Gate.basis [1, 1, 0, 0], Gate.singleExc 1 [0, 1, 2]] ∧
      circuit2 [1, 1, 0, 0] [(1 : ℚ)] [[0, 1, 2]] [] [] =
        [Gate.basis [1, 1, 0, 0]] ∧
      sparseCircuit [1, 1, 0, 0] [(1 : ℚ)] [[0, 1, 2]] =
        [Gate.basis [1, 1, 0, 0]]) ∧
    circuit1 [1, 1, 0, 0] [(1 : ℚ)] [[0, 1]] =
      circuit2 [1, 1, 0, 0] [(1 : ℚ)] [[0, 1]] [] [] := by
  constructor
  · exact (circuit_classification_mismatch 1 [0, 1, 2] [1, 1, 0, 0]).1
      (by decide) (by decide)
  · exact ((circuit_classification_mismatch 1 [0, 1] [1, 1, 0, 0]).2
      (Or.inl rfl)).1
